import Mathlib

/-!
Verification of the data-freshness core of the SLert earthquake-monitoring
dashboard: the fetch/retry/geo-filter/cache-fallback pipeline of
`src/earthquakeService.ts`, the refresh orchestration of `src/main.ts`, the
IndexedDB retention eviction of `indexedDBService.clearOldData`, and the
notification dedup ledger of `notificationService.ts`.

Numbers: the TypeScript sources compare plain JS numbers; all constants in the
modelled code are exact decimals, so we embed coordinates and magnitudes as
rationals (built with `mkRat` so that proofs can be checked by evaluation) and
timestamps as integers (epoch milliseconds).

Effects: network and IndexedDB are modelled as an explicit environment
(the outcome each fetch attempt would observe, and the outcome of the
IndexedDB read); service singletons become explicit state records, and each
method is a function from state and environment to state plus its
observable result/effects (network attempts made, lists passed to the
persistent save, notifications emitted).
-/

/-- The `'online' | 'offline'` string union consumed by `updateSystemStatus`
in `src/main.ts` (the visible status indicator). -/
inductive SystemStatus
  | online
  | offline
deriving DecidableEq

/-- The DOM `NotificationPermission` string union. -/
inductive NotificationPermission
  | defaultPerm
  | denied
  | granted
deriving DecidableEq

/-- The `Earthquake` record of `types.ts`.  `depth` is `coordinates[2]`, which
is `undefined` when the feed's coordinate array is too short, hence `Option`.
`editedByAdmin`/`originalMagnitude` belong to the moderation path outside the
modelled core and are omitted. -/
structure Earthquake where
  id : String
  magnitude : Rat
  place : String
  time : Int
  latitude : Rat
  longitude : Rat
  depth : Option Rat
  url : String
  felt : Option Int
  alert : Option String
deriving DecidableEq

/-- `geometry` of one feed feature: the `[lng, lat, depth]` coordinate array
(kept as a list, since the code must tolerate short arrays). -/
structure Geometry where
  coordinates : List Rat
deriving DecidableEq

/-- `properties` of one feed feature. -/
structure FeatureProperties where
  mag : Rat
  place : String
  time : Int
  url : String
  felt : Option Int
  alert : Option String
deriving DecidableEq

/-- One feature of the USGS feed response (`EarthquakeResponse.features[i]`).
`geometry` is optional: the code drops features with missing geometry. -/
structure Feature where
  id : String
  geometry : Option Geometry
  properties : FeatureProperties
deriving DecidableEq

/-- A bounding region `{minLat, maxLat, minLng, maxLng}`. -/
structure Bounds where
  minLat : Rat
  maxLat : Rat
  minLng : Rat
  maxLng : Rat
deriving DecidableEq

/-- `SOUTHERN_LEYTE_BOUNDS` of `earthquakeService.ts`:
9.8 ≤ lat ≤ 10.8, 124.5 ≤ lng ≤ 125.5. -/
def SOUTHERN_LEYTE_BOUNDS : Bounds :=
  { minLat := mkRat 98 10
    maxLat := mkRat 108 10
    minLng := mkRat 1245 10
    maxLng := mkRat 1255 10 }

/-- The bounds check of `earthquakeService.ts` lines 115-118:
`lat >= minLat && lat <= maxLat && lng >= minLng && lng <= maxLng`
(all comparisons inclusive). -/
def inBounds (b : Bounds) (lat lng : Rat) : Bool :=
  decide (b.minLat ≤ lat) && decide (lat ≤ b.maxLat) &&
  decide (b.minLng ≤ lng) && decide (lng ≤ b.maxLng)

/-- The per-feature mapping of `earthquakeService.ts` lines 109-138: drop the
feature when geometry is missing; read `lng = coordinates[0]`,
`lat = coordinates[1]`; drop the feature when the bounds check fails (a JS
comparison against an `undefined` destructured component is false, so a short
coordinate array is also dropped); otherwise build the `Earthquake` record. -/
def mapFeature (feature : Feature) : Option Earthquake :=
  match feature.geometry with
  | none => none
  | some g =>
    match g.coordinates.get? 0, g.coordinates.get? 1 with
    | some lng, some lat =>
      if inBounds SOUTHERN_LEYTE_BOUNDS lat lng then
        some
          { id := feature.id
            magnitude := feature.properties.mag
            place := feature.properties.place
            time := feature.properties.time
            latitude := lat
            longitude := lng
            depth := g.coordinates.get? 2
            url := feature.properties.url
            felt := feature.properties.felt
            alert := feature.properties.alert }
      else none
    | _, _ => none

/-- `earthquakes.sort((a, b) => b.time - a.time)` (line 142): a stable
comparison sort by `time` descending, embedded as insertion sort. -/
def sortByTimeDesc (l : List Earthquake) : List Earthquake :=
  l.insertionSort (fun a b => b.time ≤ a.time)

/-- The parse-filter-sort body of a successful fetch attempt
(`earthquakeService.ts` lines 108-142): map every feature, keep the non-null
results, sort by time descending. -/
def processFeatures (features : List Feature) : List Earthquake :=
  sortByTimeDesc ((features.map mapFeature).filterMap id)

/-- The geo filter of spec section 4.2 as a pure function on Event sequences:
keep an Event iff the source's bounds check (`earthquakeService.ts` lines
115-118) holds of its latitude and longitude. -/
def geoFilter (events : List Earthquake) (b : Bounds) : List Earthquake :=
  events.filter (fun e => inBounds b e.latitude e.longitude)

/-- `time`-descending sortedness of an event list (the spec's Snapshot order). -/
def sortedByTimeDesc (l : List Earthquake) : Prop :=
  l.Sorted (fun a b => b.time ≤ a.time)

/-- `cacheDuration` (60 s, in ms). -/
def cacheDuration : Int := 60000

/-- `maxRetries` (total attempt budget of `fetchWithRetry`). -/
def maxRetries : Nat := 3

/-- `retryDelay` (base delay, ms). -/
def retryDelay : Nat := 2000

/-- One run of `fetchWithRetry` (`earthquakeService.ts` lines 78-158).
`attemptOutcome k` is what attempt number `k` would observe from the network:
either the parsed feature list, or the message of the thrown error (network
error, non-ok HTTP status, parse failure or invalid format are all thrown and
handled identically by the retry logic).  `left` counts the retries still
allowed; the source's guard `attempt < maxRetries` is exactly `left > 0`
when `left = maxRetries - attempt`, which the wrapper `fetchWithRetry`
establishes.  Returns the result, the list of delays slept
(`retryDelay * attempt` before each retry, line 152), and the number of
attempts performed. -/
def fetchWithRetryGo (attemptOutcome : Nat → Except String (List Feature)) :
    Nat → Nat → Except String (List Earthquake) × List Nat × Nat
  | attempt, left =>
    match attemptOutcome attempt with
    | .ok features => (.ok (processFeatures features), [], 1)
    | .error e =>
      match left with
      | 0 => (.error e, [], 1)
      | l + 1 =>
        let r := fetchWithRetryGo attemptOutcome (attempt + 1) l
        (r.1, retryDelay * attempt :: r.2.1, r.2.2 + 1)

/-- `fetchWithRetry(timeframe, attempt)` entered at a given attempt number. -/
def fetchWithRetry (attemptOutcome : Nat → Except String (List Feature))
    (attempt : Nat) : Except String (List Earthquake) × List Nat × Nat :=
  fetchWithRetryGo attemptOutcome attempt (maxRetries - attempt)

/-- The mutable fields of the `EarthquakeService` singleton. -/
structure SvcState where
  cachedData : List Earthquake
  lastFetch : Int
deriving DecidableEq

/-- The environment one `fetchEarthquakes` call runs against: the current
time, the outcome each network attempt would observe, and the outcome of
`indexedDBService.getAllEarthquakes()` (`.error` = the IndexedDB read
rejected).  A failure of `saveEarthquakes` is caught and logged (lines 45-47)
and changes nothing observable, so it needs no field. -/
structure FetchEnv where
  now : Int
  attemptOutcome : Nat → Except String (List Feature)
  dbGetAll : Except Unit (List Earthquake)

/-- Everything observable about one `fetchEarthquakes` call: the returned
list, the service state afterwards, how many network requests were issued,
and the list passed to `indexedDBService.saveEarthquakes` (`[]` when the save
is not invoked). -/
structure FetchOutcome where
  returned : List Earthquake
  state : SvcState
  attempts : Nat
  savedEvents : List Earthquake
deriving DecidableEq

/-- `EarthquakeService.fetchEarthquakes` (`earthquakeService.ts` lines
31-76).  The in-memory freshness guard (line 35) short-circuits; otherwise
`fetchWithRetry` runs from attempt 1.  On success the service caches the
result in memory (lines 144-145, inside `fetchWithRetry`) and write-throughs
to IndexedDB when non-empty (lines 42-48).  On failure it falls back to the
IndexedDB cache (lines 54-63), then to the in-memory cache (lines 65-68);
when everything is empty the error thrown at line 70 is swallowed by the
outer catch, which returns `[]` (line 74).  The function never throws. -/
def fetchEarthquakes (s : SvcState) (env : FetchEnv) : FetchOutcome :=
  if env.now - s.lastFetch < cacheDuration ∧ 0 < s.cachedData.length then
    { returned := s.cachedData, state := s, attempts := 0, savedEvents := [] }
  else
    match fetchWithRetry env.attemptOutcome 1 with
    | (.ok earthquakes, _, n) =>
      { returned := earthquakes
        state := { cachedData := earthquakes, lastFetch := env.now }
        attempts := n
        savedEvents := if 0 < earthquakes.length then earthquakes else [] }
    | (.error _, _, n) =>
      match env.dbGetAll with
      | .ok cachedEarthquakes =>
        if 0 < cachedEarthquakes.length then
          { returned := cachedEarthquakes
            state := { s with cachedData := cachedEarthquakes }
            attempts := n
            savedEvents := [] }
        else if 0 < s.cachedData.length then
          { returned := s.cachedData, state := s, attempts := n, savedEvents := [] }
        else
          { returned := [], state := s, attempts := n, savedEvents := [] }
      | .error _ =>
        if 0 < s.cachedData.length then
          { returned := s.cachedData, state := s, attempts := n, savedEvents := [] }
        else
          { returned := [], state := s, attempts := n, savedEvents := [] }

/-- The outcome of one `refreshData()` call (`main.ts` lines 56-79):
the new canonical in-memory list and the value passed to
`updateSystemStatus('api', _)`. -/
structure RefreshOutcome where
  currentEarthquakes : List Earthquake
  apiStatus : SystemStatus
  state : SvcState
deriving DecidableEq

/-- `refreshData` (`main.ts` lines 56-79) restricted to the modelled core:
it awaits `fetchEarthquakes` — which never throws (outer catch,
`earthquakeService.ts` lines 72-75) — so the catch branch that would call
`updateSystemStatus('api', 'offline')` is unreachable from a fetch failure
and the status indicator is always set to `online` (line 73 of `main.ts`). -/
def refreshData (s : SvcState) (env : FetchEnv) : RefreshOutcome :=
  let r := fetchEarthquakes s env
  { currentEarthquakes := r.returned
    apiStatus := SystemStatus.online
    state := r.state }

/-- Total number of network requests issued by two `refresh()` calls when the
second is triggered while the first is still awaiting its first network
response.  JS is single-threaded and the service state is only assigned after
an await resolves (`earthquakeService.ts` lines 144-145 and 58), so the
second call's freshness guard (line 35) still reads the initial state; and a
call's request count depends only on its own guard and attempt outcomes,
because `fetchWithRetry` never re-reads the guard.  Hence each call issues
exactly the requests it would issue when run alone from state `s`. -/
def concurrentRefreshAttempts (s : SvcState) (env1 env2 : FetchEnv) : Nat :=
  (fetchEarthquakes s env1).attempts + (fetchEarthquakes s env2).attempts

/-- `IndexedDBService.clearOldData` (`indexedDBService` lines 108-139): with
`cutoffTime = now - olderThanDays*24*60*60*1000`, a cursor over
`IDBKeyRange.upperBound(cutoffTime)` (inclusive) deletes every record with
`time ≤ cutoffTime`; the store keeps exactly the records with
`time > cutoffTime`. -/
def clearOldData (store : List Earthquake) (now : Int) (olderThanDays : Int) :
    List Earthquake :=
  let cutoffTime := now - olderThanDays * 24 * 60 * 60 * 1000
  store.filter (fun e => decide (cutoffTime < e.time))

/-- The mutable fields of the `NotificationService` singleton
(`notificationService.ts`): the cached permission and the dedup ledger
`notifiedEarthquakes` (a `Set<string>`, modelled as the list of added ids). -/
structure NotificationService where
  permission : NotificationPermission
  notifiedEarthquakes : List String
deriving DecidableEq

/-- Environment of the notification service: what
`Notification.requestPermission()` would resolve to, and whether constructing
a `Notification` succeeds (`notificationOk = false` models the constructor
throwing, which is caught and logged).  We model a browser that supports the
Notification API. -/
structure NotificationEnv where
  browserPermission : NotificationPermission
  notificationOk : Bool
deriving DecidableEq

/-- `NotificationService.requestPermission` (lines 21-43): already granted
returns true; otherwise the browser is asked and the cached permission is
updated with the result. -/
def requestPermission (s : NotificationService) (env : NotificationEnv) :
    NotificationService × Bool :=
  if s.permission = NotificationPermission.granted then (s, true)
  else
    ({ s with permission := env.browserPermission },
     decide (env.browserPermission = NotificationPermission.granted))

/-- `NotificationService.notifyEarthquake` (lines 45-110): below threshold or
already in the ledger → no notification; permission is requested when not yet
granted; the notification is created and only then is the id added to the
ledger (line 101) — when the constructor throws, the id is not added and the
error is swallowed (lines 103-109).  Returns the emitted notification's tag
(`earthquake.id`), if any. -/
def notifyEarthquake (s : NotificationService) (env : NotificationEnv)
    (earthquake : Earthquake) (threshold : Rat) :
    NotificationService × Option String :=
  if earthquake.magnitude < threshold then (s, none)
  else if earthquake.id ∈ s.notifiedEarthquakes then (s, none)
  else
    let p :=
      if s.permission = NotificationPermission.granted then (s, true)
      else requestPermission s env
    if p.2 then
      if env.notificationOk then
        ({ p.1 with notifiedEarthquakes := earthquake.id :: p.1.notifiedEarthquakes },
         some earthquake.id)
      else (p.1, none)
    else (p.1, none)

/-- The `for (const earthquake of significantEarthquakes)` loop of
`notifyMultipleEarthquakes` (lines 144-150): process each event in order,
threading the service state and collecting the emitted notification tags. -/
def notifyLoop (env : NotificationEnv) (threshold : Rat) :
    NotificationService → List Earthquake → NotificationService × List String
  | s, [] => (s, [])
  | s, earthquake :: rest =>
    let r := notifyEarthquake s env earthquake threshold
    let r2 := notifyLoop env threshold r.1 rest
    (r2.1, r.2.toList ++ r2.2)

/-- `NotificationService.notifyMultipleEarthquakes` (lines 112-154): filter
the snapshot down to events with `magnitude >= threshold` whose id is not yet
in the ledger; return early when none remain; ensure permission; then notify
each in order. -/
def notifyMultipleEarthquakes (s : NotificationService) (env : NotificationEnv)
    (earthquakes : List Earthquake) (threshold : Rat) :
    NotificationService × List String :=
  let significantEarthquakes := earthquakes.filter (fun eq =>
    decide (threshold ≤ eq.magnitude) && !(decide (eq.id ∈ s.notifiedEarthquakes)))
  if significantEarthquakes.length = 0 then (s, [])
  else
    let p :=
      if s.permission = NotificationPermission.granted then (s, true)
      else requestPermission s env
    if p.2 then notifyLoop env threshold p.1 significantEarthquakes
    else (p.1, [])

/-! Concrete fixtures used by witnesses and counterexamples. -/

/-- Message of a thrown transport error. -/
def netErr : String := "Network error: Failed to fetch"

/-- A cached in-region event with the lexicographically smaller id and the
older time (IndexedDB `getAll` returns records in key = id order). -/
def qOld : Earthquake :=
  { id := "aa11"
    magnitude := mkRat 32 10
    place := "Sogod, Southern Leyte"
    time := 0
    latitude := mkRat 101 10
    longitude := mkRat 1249 10
    depth := some (mkRat 10 1)
    url := "https://example.org/aa11"
    felt := none
    alert := none }

/-- A cached in-region event with the larger id and the newer time. -/
def qNew : Earthquake :=
  { id := "bb22"
    magnitude := mkRat 51 10
    place := "Maasin, Southern Leyte"
    time := 100
    latitude := mkRat 104 10
    longitude := mkRat 1251 10
    depth := some (mkRat 5 1)
    url := "https://example.org/bb22"
    felt := some 3
    alert := none }

/-- An event far outside the 30-day retention window (`time ≤ -2592000001`
relative to `now = 0`). -/
def qVeryOld : Earthquake :=
  { qOld with id := "cc33", time := -2592000001 }

/-- An in-region event above the default notification threshold 4.0. -/
def qBig : Earthquake :=
  { id := "dd44"
    magnitude := mkRat 45 10
    place := "Liloan, Southern Leyte"
    time := 200
    latitude := mkRat 100 10
    longitude := mkRat 1250 10
    depth := some (mkRat 8 1)
    url := "https://example.org/dd44"
    felt := none
    alert := none }

/-- A feed feature inside the Southern Leyte bounds
(lng 124.9, lat 10.1, depth 10). -/
def featIn : Feature :=
  { id := "aa11"
    geometry := some { coordinates := [mkRat 1249 10, mkRat 101 10, mkRat 10 1] }
    properties :=
      { mag := mkRat 32 10
        place := "Sogod, Southern Leyte"
        time := 0
        url := "https://example.org/aa11"
        felt := none
        alert := none } }

/-- A feed feature outside the bounds (lat 14.6: Manila). -/
def featOut : Feature :=
  { id := "ee55"
    geometry := some { coordinates := [mkRat 1210 10, mkRat 146 10, mkRat 1 1] }
    properties :=
      { mag := mkRat 60 10
        place := "Manila"
        time := 300
        url := "https://example.org/ee55"
        felt := none
        alert := none } }

/-- A cold service state: nothing in memory yet. -/
def coldState : SvcState := { cachedData := [], lastFetch := 0 }

/-- Every attempt fails, the IndexedDB cache holds `[qOld, qNew]` (id order,
which is time-ascending here). -/
def envFallback : FetchEnv :=
  { now := 0
    attemptOutcome := fun _ => Except.error netErr
    dbGetAll := Except.ok [qOld, qNew] }

/-- Every attempt fails and the IndexedDB read itself rejects. -/
def envFail : FetchEnv :=
  { now := 0
    attemptOutcome := fun _ => Except.error netErr
    dbGetAll := Except.error () }

/-- The first attempt succeeds with one in-bounds and one out-of-bounds
feature. -/
def envOkFeat : FetchEnv :=
  { now := 0
    attemptOutcome := fun _ => Except.ok [featOut, featIn]
    dbGetAll := Except.ok [] }

/-- The event `processFeatures` builds from `featIn`. -/
def qFromFeatIn : Earthquake :=
  { id := "aa11"
    magnitude := mkRat 32 10
    place := "Sogod, Southern Leyte"
    time := 0
    latitude := mkRat 101 10
    longitude := mkRat 1249 10
    depth := some (mkRat 10 1)
    url := "https://example.org/aa11"
    felt := none
    alert := none }

/-- Both calls of the concurrency scenario succeed on their first attempt
(with an empty feature list). -/
def envTwo : FetchEnv :=
  { now := 0
    attemptOutcome := fun _ => Except.ok []
    dbGetAll := Except.ok [] }

/-- A warm service state: one event fetched at t = 1000. -/
def warmState : SvcState := { cachedData := [qBig], lastFetch := 1000 }

/-- A call 500 ms after the last successful fetch. -/
def envWarm : FetchEnv :=
  { now := 1500
    attemptOutcome := fun _ => Except.error netErr
    dbGetAll := Except.ok [] }

/-- A stale service state: one event in memory, last fetched at t = 0. -/
def staleState : SvcState := { cachedData := [qBig], lastFetch := 0 }

/-- A call 100 s after the last successful fetch (past the 60 s freshness
window), succeeding on its first attempt. -/
def envStale : FetchEnv :=
  { now := 100000
    attemptOutcome := fun _ => Except.ok []
    dbGetAll := Except.ok [] }

/-- Notification service with permission granted and an empty ledger. -/
def notifStart : NotificationService :=
  { permission := NotificationPermission.granted
    notifiedEarthquakes := [] }

/-- Browser environment where permission is granted and notifications can be
constructed. -/
def notifEnv : NotificationEnv :=
  { browserPermission := NotificationPermission.granted
    notificationOk := true }

/-! Helper instances and lemmas shared by several claims. -/

instance : IsTotal Earthquake (fun a b => b.time ≤ a.time) :=
  ⟨fun a b => Int.le_total b.time a.time⟩

instance : IsTrans Earthquake (fun a b => b.time ≤ a.time) :=
  ⟨fun _ _ _ hab hbc => le_trans hbc hab⟩

theorem processFeatures_sorted (fs : List Feature) :
    sortedByTimeDesc (processFeatures fs) :=
  List.sorted_insertionSort _ _

theorem mapFeature_inBounds (f : Feature) (e : Earthquake)
    (h : mapFeature f = some e) :
    inBounds SOUTHERN_LEYTE_BOUNDS e.latitude e.longitude = true := by
  unfold mapFeature at h
  split at h
  · exact absurd h (by simp)
  next g =>
    split at h
    next lng lat h0 h1 =>
      split at h
      next hb =>
        cases h
        exact hb
      next hb => exact absurd h (by simp)
    · exact absurd h (by simp)

theorem processFeatures_inBounds (fs : List Feature) (e : Earthquake)
    (h : e ∈ processFeatures fs) :
    inBounds SOUTHERN_LEYTE_BOUNDS e.latitude e.longitude = true := by
  unfold processFeatures sortByTimeDesc at h
  have h2 := (List.perm_insertionSort (fun (a b : Earthquake) => b.time ≤ a.time)
    ((fs.map mapFeature).filterMap id)).mem_iff.mp h
  rw [List.mem_filterMap] at h2
  obtain ⟨a, ha, hae⟩ := h2
  rw [List.mem_map] at ha
  obtain ⟨f, _, rfl⟩ := ha
  exact mapFeature_inBounds f e hae

theorem fetchWithRetryGo_ok_exists
    (o : Nat → Except String (List Feature)) :
    ∀ (left attempt : Nat) (l : List Earthquake) (ds : List Nat) (n : Nat),
      fetchWithRetryGo o attempt left = (.ok l, ds, n) →
      ∃ fs, l = processFeatures fs := by
  intro left
  induction left with
  | zero =>
    intro attempt l ds n h
    unfold fetchWithRetryGo at h
    split at h
    next fs ho =>
      refine ⟨fs, ?_⟩
      cases h
      rfl
    next e ho => simp at h
  | succ left ih =>
    intro attempt l ds n h
    unfold fetchWithRetryGo at h
    split at h
    next fs ho =>
      refine ⟨fs, ?_⟩
      cases h
      rfl
    next e ho =>
      simp only [Prod.mk.injEq] at h
      obtain ⟨h1, -, -⟩ := h
      exact ih (attempt + 1) l (fetchWithRetryGo o (attempt + 1) left).2.1
        (fetchWithRetryGo o (attempt + 1) left).2.2
        (by rw [← h1])

theorem fetchWithRetryGo_attempts_pos (o : Nat → Except String (List Feature))
    (attempt left : Nat) : 1 ≤ (fetchWithRetryGo o attempt left).2.2 := by
  unfold fetchWithRetryGo
  split
  all_goals try split
  all_goals simp

theorem retry_allFail (o : Nat → Except String (List Feature))
    (e1 e2 e3 : String) (h1 : o 1 = .error e1) (h2 : o 2 = .error e2)
    (h3 : o 3 = .error e3) :
    fetchWithRetry o 1 = (.error e3, [retryDelay * 1, retryDelay * 2], 3) := by
  unfold fetchWithRetry maxRetries
  unfold fetchWithRetryGo
  rw [h1]
  unfold fetchWithRetryGo
  rw [h2]
  unfold fetchWithRetryGo
  rw [h3]

/-! Claim theorems. -/

/-- C9: the geo filter is idempotent (`filter(filter(E,B),B) = filter(E,B)`),
order-preserving (the kept events form a sublist of `E`, so their relative
order is their order in `E`), and maps the empty input to the empty output. -/
theorem geoFilter_idempotent (E : List Earthquake) (b : Bounds) :
    geoFilter (geoFilter E b) b = geoFilter E b ∧
    (geoFilter E b).Sublist E ∧
    geoFilter ([] : List Earthquake) b = [] := by
  refine ⟨?_, List.filter_sublist E, rfl⟩
  simp [geoFilter, List.filter_filter]

/-- C7: after `clearOldData(30)` at time `now`, the store holds no event with
`time < now - 30*86400000`; every stored event older than that cutoff is
deleted; and every stored event strictly newer than the cutoff is kept
(the cursor deletes exactly the records with `time ≤ cutoff`). -/
theorem clearOldData_retention (store : List Earthquake) (now : Int)
    (e : Earthquake) :
    (e ∈ clearOldData store now 30 → ¬ e.time < now - 30 * 86400000) ∧
    (e ∈ store → e.time < now - 30 * 86400000 → e ∉ clearOldData store now 30) ∧
    (e ∈ store → now - 30 * 86400000 < e.time → e ∈ clearOldData store now 30) := by
  refine ⟨?_, ?_, ?_⟩
  · intro h
    have hp := (List.mem_filter.mp h).2
    rw [decide_eq_true_eq] at hp
    omega
  · intro hmem hold hin
    have hp := (List.mem_filter.mp hin).2
    rw [decide_eq_true_eq] at hp
    omega
  · intro hmem hnew
    refine List.mem_filter.mpr ⟨hmem, ?_⟩
    rw [decide_eq_true_eq]
    omega

/-- C7 witness: with `now = 0`, `clearOldData` keeps the event with `time = 100`
and deletes the event with `time = -2592000001`. -/
theorem clearOldData_retention_witness :
    qNew ∈ clearOldData [qVeryOld, qNew] 0 30 ∧
    qVeryOld ∉ clearOldData [qVeryOld, qNew] 0 30 :=
  ⟨(clearOldData_retention [qVeryOld, qNew] 0 qNew).2.2 (by decide) (by decide),
   (clearOldData_retention [qVeryOld, qNew] 0 qVeryOld).2.1 (by decide) (by decide)⟩

/-- C3: when attempts 1, 2 and 3 all fail, `fetchWithRetry` performs exactly
3 attempts, sleeps `retryDelay * attempt` before each retry (2000 ms after the
first failed attempt, 4000 ms after the second), and fails with the error of
the last attempt. -/
theorem fetchWithRetry_three_attempts (o : Nat → Except String (List Feature))
    (e1 e2 e3 : String) (h1 : o 1 = .error e1) (h2 : o 2 = .error e2)
    (h3 : o 3 = .error e3) :
    fetchWithRetry o 1 = (.error e3, [retryDelay * 1, retryDelay * 2], 3) :=
  retry_allFail o e1 e2 e3 h1 h2 h3

/-- C3 witness: concrete run where every attempt fails with a network error. -/
theorem fetchWithRetry_three_attempts_witness :
    fetchWithRetry (fun _ => Except.error netErr) 1 =
      (Except.error netErr, [retryDelay * 1, retryDelay * 2], 3) :=
  fetchWithRetry_three_attempts (fun _ => Except.error netErr) netErr netErr
    netErr rfl rfl rfl

/-- C10: when the last successful fetch is less than `cacheDuration` (60 s)
old and the in-memory list is non-empty, `fetchEarthquakes` returns the
in-memory list unchanged, leaves the state unchanged, issues no network
request (hence no retry), and passes nothing to the persistent save. -/
theorem fetchEarthquakes_memory_cache (s : SvcState) (env : FetchEnv)
    (h1 : env.now - s.lastFetch < cacheDuration)
    (h2 : 0 < s.cachedData.length) :
    fetchEarthquakes s env =
      { returned := s.cachedData, state := s, attempts := 0, savedEvents := [] } := by
  unfold fetchEarthquakes
  rw [if_pos ⟨h1, h2⟩]

/-- C10 witness: a call 500 ms after the last successful fetch, with one
event in memory, returns it with no network request and no store write. -/
theorem fetchEarthquakes_memory_cache_witness :
    fetchEarthquakes warmState envWarm =
      { returned := [qBig], state := warmState, attempts := 0, savedEvents := [] } :=
  fetchEarthquakes_memory_cache warmState envWarm (by decide) (by decide)

theorem fetchEarthquakes_attempts_eq (s : SvcState) (env : FetchEnv)
    (hg : ¬(env.now - s.lastFetch < cacheDuration ∧ 0 < s.cachedData.length)) :
    (fetchEarthquakes s env).attempts = (fetchWithRetry env.attemptOutcome 1).2.2 := by
  rcases hfr : fetchWithRetry env.attemptOutcome 1 with ⟨res, ds, n⟩
  unfold fetchEarthquakes
  rw [if_neg hg, hfr]
  cases res with
  | ok l => rfl
  | error err =>
    cases hdb : env.dbGetAll with
    | ok cached =>
      dsimp only
      split_ifs <;> rfl
    | error u =>
      dsimp only
      split_ifs <;> rfl

/-- C4 is corrected by this theorem: `fetchEarthquakes` has no in-flight
guard, so each of two concurrent `refresh()` calls runs its own
`fetchWithRetry`; whenever the 60 s in-memory freshness guard fails for both
calls — a cold (empty) in-memory cache, or a stale one whose last successful
fetch is 60 s or more before the call — the two calls together issue at
least two network requests (at least one each), not one. -/
theorem concurrent_refresh_two_fetches (s : SvcState) (env1 env2 : FetchEnv)
    (hg1 : ¬(env1.now - s.lastFetch < cacheDuration ∧ 0 < s.cachedData.length))
    (hg2 : ¬(env2.now - s.lastFetch < cacheDuration ∧ 0 < s.cachedData.length)) :
    2 ≤ concurrentRefreshAttempts s env1 env2 := by
  have a1 := fetchEarthquakes_attempts_eq s env1 hg1
  have a2 := fetchEarthquakes_attempts_eq s env2 hg2
  have p1 := fetchWithRetryGo_attempts_pos env1.attemptOutcome 1 (maxRetries - 1)
  have p2 := fetchWithRetryGo_attempts_pos env2.attemptOutcome 1 (maxRetries - 1)
  unfold fetchWithRetry at a1 a2
  unfold concurrentRefreshAttempts
  omega

/-- C4 counterexample: two concurrent `refresh()` calls from a cold state,
each of whose first attempt succeeds, issue two underlying fetches — not the
single fetch the claim asserts.  (The second call's freshness guard reads the
pre-refresh state because nothing is assigned until an await resolves.) -/
theorem concurrent_refresh_counterexample :
    concurrentRefreshAttempts coldState envTwo envTwo = 2 ∧
    concurrentRefreshAttempts coldState envTwo envTwo ≠ 1 := by decide

/-- C4 witness (for the corrected theorem): concrete stale-state scenario —
one event in memory, last fetched 100 s before both calls. -/
theorem concurrent_refresh_two_fetches_witness :
    2 ≤ concurrentRefreshAttempts staleState envStale envStale :=
  concurrent_refresh_two_fetches staleState envStale envStale
    (by decide) (by decide)

/-- C5 is corrected by this theorem: the snapshot of every refresh whose
`fetchWithRetry` succeeds is sorted by `time` descending (line 142 sorts). -/
theorem snapshot_sorted_on_success (s : SvcState) (env : FetchEnv)
    (l : List Earthquake) (ds : List Nat) (n : Nat)
    (hg : ¬(env.now - s.lastFetch < cacheDuration ∧ 0 < s.cachedData.length))
    (hfr : fetchWithRetry env.attemptOutcome 1 = (.ok l, ds, n)) :
    (fetchEarthquakes s env).returned = l ∧ sortedByTimeDesc l := by
  obtain ⟨fs, rfl⟩ :=
    fetchWithRetryGo_ok_exists env.attemptOutcome (maxRetries - 1) 1 l ds n hfr
  refine ⟨?_, processFeatures_sorted fs⟩
  unfold fetchEarthquakes
  rw [if_neg hg, hfr]

/-- C5 counterexample: a refresh served from the IndexedDB cache fallback
returns the store's id-ordered list without re-sorting; with the cache
holding `[qOld, qNew]` (times 0 and 100), the delivered snapshot is not
sorted by time descending. -/
theorem snapshot_unsorted_counterexample :
    (fetchEarthquakes coldState envFallback).returned = [qOld, qNew] ∧
    ¬ sortedByTimeDesc (fetchEarthquakes coldState envFallback).returned := by
  have hret : (fetchEarthquakes coldState envFallback).returned = [qOld, qNew] := by
    decide
  refine ⟨hret, ?_⟩
  rw [hret]
  unfold sortedByTimeDesc
  rw [List.sorted_cons]
  intro h
  have := h.1 qNew (by decide)
  rw [show qNew.time = 100 from rfl, show qOld.time = 0 from rfl] at this
  omega

/-- C5 witness (for the corrected theorem): a successful fetch of one
in-bounds feature yields a sorted one-event snapshot. -/
theorem snapshot_sorted_on_success_witness :
    (fetchEarthquakes coldState envOkFeat).returned = [qFromFeatIn] ∧
    sortedByTimeDesc [qFromFeatIn] :=
  snapshot_sorted_on_success coldState envOkFeat [qFromFeatIn] [] 1
    (by decide) (by rfl)

theorem savedEvents_in_processed (s : SvcState) (env : FetchEnv)
    (e : Earthquake) (h : e ∈ (fetchEarthquakes s env).savedEvents) :
    ∃ fs, e ∈ processFeatures fs := by
  unfold fetchEarthquakes at h
  by_cases hg : env.now - s.lastFetch < cacheDuration ∧ 0 < s.cachedData.length
  · rw [if_pos hg] at h
    simp at h
  · rw [if_neg hg] at h
    rcases hfr : fetchWithRetry env.attemptOutcome 1 with ⟨res, ds, n⟩
    rw [hfr] at h
    cases res with
    | ok l =>
      dsimp only at h
      obtain ⟨fs, rfl⟩ :=
        fetchWithRetryGo_ok_exists env.attemptOutcome (maxRetries - 1) 1 l ds n hfr
      refine ⟨fs, ?_⟩
      by_cases hl : 0 < (processFeatures fs).length
      · rw [if_pos hl] at h
        exact h
      · rw [if_neg hl] at h
        simp at h
    | error err =>
      dsimp only at h
      split at h
      · split at h
        · simp at h
        · split at h <;> simp at h
      · split at h <;> simp at h

/-- C6: every event kept by the geo filter satisfies the inclusive Southern
Leyte bounds, and every event passed to the persistent save
(`indexedDBService.saveEarthquakes`) satisfies them too — no out-of-region
event is ever written to the cache store. -/
theorem geo_filter_containment (fs : List Feature) (s : SvcState)
    (env : FetchEnv) (e : Earthquake) :
    (e ∈ processFeatures fs →
      SOUTHERN_LEYTE_BOUNDS.minLat ≤ e.latitude ∧
      e.latitude ≤ SOUTHERN_LEYTE_BOUNDS.maxLat ∧
      SOUTHERN_LEYTE_BOUNDS.minLng ≤ e.longitude ∧
      e.longitude ≤ SOUTHERN_LEYTE_BOUNDS.maxLng) ∧
    (e ∈ (fetchEarthquakes s env).savedEvents →
      SOUTHERN_LEYTE_BOUNDS.minLat ≤ e.latitude ∧
      e.latitude ≤ SOUTHERN_LEYTE_BOUNDS.maxLat ∧
      SOUTHERN_LEYTE_BOUNDS.minLng ≤ e.longitude ∧
      e.longitude ≤ SOUTHERN_LEYTE_BOUNDS.maxLng) := by
  have key : ∀ fs2 : List Feature, e ∈ processFeatures fs2 →
      SOUTHERN_LEYTE_BOUNDS.minLat ≤ e.latitude ∧
      e.latitude ≤ SOUTHERN_LEYTE_BOUNDS.maxLat ∧
      SOUTHERN_LEYTE_BOUNDS.minLng ≤ e.longitude ∧
      e.longitude ≤ SOUTHERN_LEYTE_BOUNDS.maxLng := by
    intro fs2 h
    have hb := processFeatures_inBounds fs2 e h
    unfold inBounds at hb
    simp only [Bool.and_eq_true, decide_eq_true_eq] at hb
    tauto
  refine ⟨key fs, fun h => ?_⟩
  obtain ⟨fs2, h2⟩ := savedEvents_in_processed s env e h
  exact key fs2 h2

/-- C6 witness: the event parsed from the in-bounds feature is saved to the
store and satisfies the bounds. -/
theorem geo_filter_containment_witness :
    SOUTHERN_LEYTE_BOUNDS.minLat ≤ qFromFeatIn.latitude ∧
    qFromFeatIn.latitude ≤ SOUTHERN_LEYTE_BOUNDS.maxLat ∧
    SOUTHERN_LEYTE_BOUNDS.minLng ≤ qFromFeatIn.longitude ∧
    qFromFeatIn.longitude ≤ SOUTHERN_LEYTE_BOUNDS.maxLng :=
  (geo_filter_containment [featOut, featIn] coldState envOkFeat qFromFeatIn).2
    (by decide)

/-- C1 is corrected by this theorem: when every attempt fails and the
IndexedDB cache holds a non-empty list `l`, the refresh delivers exactly `l`
as the new snapshot (and caches it in memory) — but nothing marks it
degraded: the api status indicator is set to `online`, exactly as on a
successful refresh, because `fetchEarthquakes` swallows the failure. -/
theorem cache_fallback_refresh (s : SvcState) (env : FetchEnv)
    (l : List Earthquake) (e1 e2 e3 : String)
    (hg : ¬(env.now - s.lastFetch < cacheDuration ∧ 0 < s.cachedData.length))
    (h1 : env.attemptOutcome 1 = .error e1)
    (h2 : env.attemptOutcome 2 = .error e2)
    (h3 : env.attemptOutcome 3 = .error e3)
    (hdb : env.dbGetAll = .ok l) (hl : 0 < l.length) :
    (refreshData s env).currentEarthquakes = l ∧
    (refreshData s env).apiStatus = SystemStatus.online ∧
    (refreshData s env).state.cachedData = l := by
  have hfr := retry_allFail env.attemptOutcome e1 e2 e3 h1 h2 h3
  unfold refreshData fetchEarthquakes
  rw [if_neg hg, hfr]
  dsimp only
  rw [hdb]
  dsimp only
  rw [if_pos hl]
  exact ⟨rfl, rfl, rfl⟩

/-- C1 counterexample (against "marked degraded = true"): a refresh whose
fetch exhausts all retries and is served from a 2-event IndexedDB cache
delivers those events, but its only surfaced status is `online` — identical
to the status of a fully successful refresh.  No degraded marking exists in
the code. -/
theorem cache_fallback_not_marked_degraded :
    (refreshData coldState envFallback).currentEarthquakes = [qOld, qNew] ∧
    (refreshData coldState envFallback).apiStatus = SystemStatus.online ∧
    (refreshData coldState envFallback).apiStatus =
      (refreshData coldState envOkFeat).apiStatus := by decide

/-- C1 witness (for the corrected theorem): concrete fallback scenario. -/
theorem cache_fallback_refresh_witness :
    (refreshData coldState envFallback).currentEarthquakes = [qOld, qNew] ∧
    (refreshData coldState envFallback).apiStatus = SystemStatus.online ∧
    (refreshData coldState envFallback).state.cachedData = [qOld, qNew] :=
  cache_fallback_refresh coldState envFallback [qOld, qNew] netErr netErr netErr
    (by decide) rfl rfl rfl rfl (by decide)

/-- C8: evaluation at the failing input.  With every attempt failing, the
IndexedDB read rejecting, and nothing in memory, the refresh still completes
(with an empty list — no error is fatal), but the failure is silent: the
visible api status indicator is set to `online`, never to `offline`, because
`fetchEarthquakes` swallows every error before `refreshData`'s catch (the
only caller of `updateSystemStatus('api', 'offline')`) can observe one. -/
theorem refresh_total_failure_silent :
    (refreshData coldState envFail).currentEarthquakes = [] ∧
    (refreshData coldState envFail).apiStatus = SystemStatus.online := by decide

theorem notifyEarthquake_emit (s : NotificationService) (env : NotificationEnv)
    (q : Earthquake) (t : Rat)
    (hperm : s.permission = NotificationPermission.granted)
    (hok : env.notificationOk = true)
    (hm : t ≤ q.magnitude) (hnew : q.id ∉ s.notifiedEarthquakes) :
    notifyEarthquake s env q t =
      ({ s with notifiedEarthquakes := q.id :: s.notifiedEarthquakes },
       some q.id) := by
  unfold notifyEarthquake
  rw [if_neg (not_lt.mpr hm), if_neg hnew]
  simp [hperm, hok]

theorem notifyEarthquake_skip (s : NotificationService) (env : NotificationEnv)
    (q : Earthquake) (t : Rat)
    (h : ¬(t ≤ q.magnitude ∧ q.id ∉ s.notifiedEarthquakes)) :
    notifyEarthquake s env q t = (s, none) := by
  unfold notifyEarthquake
  by_cases hlt : q.magnitude < t
  · rw [if_pos hlt]
  · rw [if_neg hlt]
    have hmem : q.id ∈ s.notifiedEarthquakes := by
      rcases not_and_or.mp h with h1 | h2
      · exact absurd (not_lt.mp hlt) h1
      · exact not_not.mp h2
    rw [if_pos hmem]

theorem notifyLoop_notified (env : NotificationEnv) (t : Rat) (x : String)
    (hok : env.notificationOk = true) :
    ∀ (l : List Earthquake) (s : NotificationService),
      s.permission = NotificationPermission.granted →
      x ∈ s.notifiedEarthquakes →
      (notifyLoop env t s l).1.permission = NotificationPermission.granted ∧
      x ∈ (notifyLoop env t s l).1.notifiedEarthquakes ∧
      (notifyLoop env t s l).2.count x = 0 := by
  intro l
  induction l with
  | nil =>
    intro s hp hx
    exact ⟨hp, hx, rfl⟩
  | cons q rest ih =>
    intro s hp hx
    unfold notifyLoop
    by_cases hq : t ≤ q.magnitude ∧ q.id ∉ s.notifiedEarthquakes
    · rw [notifyEarthquake_emit s env q t hp hok hq.1 hq.2]
      dsimp only
      have hne : x ≠ q.id := fun hxe => hq.2 (hxe ▸ hx)
      have ihr := ih { s with notifiedEarthquakes := q.id :: s.notifiedEarthquakes }
        hp (List.mem_cons_of_mem _ hx)
      refine ⟨ihr.1, ihr.2.1, ?_⟩
      simp [List.count_cons, hne, ihr.2.2]
    · rw [notifyEarthquake_skip s env q t hq]
      dsimp only
      have ihr := ih s hp hx
      refine ⟨ihr.1, ihr.2.1, ?_⟩
      simpa using ihr.2.2

theorem notifyLoop_first (env : NotificationEnv) (t : Rat) (x : String)
    (hok : env.notificationOk = true) :
    ∀ (l : List Earthquake) (s : NotificationService),
      s.permission = NotificationPermission.granted →
      x ∉ s.notifiedEarthquakes →
      (∃ q ∈ l, q.id = x ∧ t ≤ q.magnitude) →
      (notifyLoop env t s l).2.count x = 1 ∧
      (notifyLoop env t s l).1.permission = NotificationPermission.granted ∧
      x ∈ (notifyLoop env t s l).1.notifiedEarthquakes := by
  intro l
  induction l with
  | nil =>
    intro s _ _ hex
    simp at hex
  | cons q rest ih =>
    intro s hp hx hex
    unfold notifyLoop
    by_cases hq : q.id = x ∧ t ≤ q.magnitude
    · obtain ⟨hqx, hqm⟩ := hq
      subst hqx
      rw [notifyEarthquake_emit s env q t hp hok hqm hx]
      dsimp only
      have m := notifyLoop_notified env t q.id hok rest
        { s with notifiedEarthquakes := q.id :: s.notifiedEarthquakes } hp
        (List.mem_cons_self _ _)
      refine ⟨?_, m.1, m.2.1⟩
      simp [List.count_cons, m.2.2]
    · by_cases hq2 : t ≤ q.magnitude ∧ q.id ∉ s.notifiedEarthquakes
      · have hne : x ≠ q.id := by
          intro he
          exact hq ⟨he.symm, hq2.1⟩
        rw [notifyEarthquake_emit s env q t hp hok hq2.1 hq2.2]
        dsimp only
        have hx1 : x ∉ (q.id :: s.notifiedEarthquakes) := by
          intro hmem
          rcases List.mem_cons.mp hmem with h | h
          · exact hne h
          · exact hx h
        have hex1 : ∃ q2 ∈ rest, q2.id = x ∧ t ≤ q2.magnitude := by
          rcases hex with ⟨q2, hq2mem, hq2p⟩
          rcases List.mem_cons.mp hq2mem with rfl | hr
          · exact absurd ⟨hq2p.1, hq2p.2⟩ hq
          · exact ⟨q2, hr, hq2p⟩
        have ihr := ih { s with notifiedEarthquakes := q.id :: s.notifiedEarthquakes }
          hp hx1 hex1
        refine ⟨?_, ihr.2.1, ihr.2.2⟩
        simp [List.count_cons, hne, ihr.1]
      · rw [notifyEarthquake_skip s env q t hq2]
        dsimp only
        have hex1 : ∃ q2 ∈ rest, q2.id = x ∧ t ≤ q2.magnitude := by
          rcases hex with ⟨q2, hq2mem, hq2p⟩
          rcases List.mem_cons.mp hq2mem with rfl | hr
          · exact absurd ⟨hq2p.1, hq2p.2⟩ hq
          · exact ⟨q2, hr, hq2p⟩
        have ihr := ih s hp hx hex1
        refine ⟨?_, ihr.2.1, ihr.2.2⟩
        simpa using ihr.1

theorem notifyMultiple_count_zero (s : NotificationService)
    (env : NotificationEnv) (l : List Earthquake) (t : Rat) (x : String)
    (hp : s.permission = NotificationPermission.granted)
    (hok : env.notificationOk = true)
    (hx : x ∈ s.notifiedEarthquakes) :
    (notifyMultipleEarthquakes s env l t).2.count x = 0 := by
  unfold notifyMultipleEarthquakes
  by_cases hlen : (l.filter (fun q =>
      decide (t ≤ q.magnitude) && !(decide (q.id ∈ s.notifiedEarthquakes)))).length = 0
  · rw [if_pos hlen]
    rfl
  · rw [if_neg hlen]
    simp only [hp, if_pos]
    exact (notifyLoop_notified env t x hok _ s hp hx).2.2

/-- C2: an event with `magnitude ≥ threshold` appearing in two consecutive
snapshots is notified exactly once across both `notifyMultipleEarthquakes`
calls: the first occurrence emits one notification and puts the id in the
ledger, and an id already in the ledger never triggers again. -/
theorem notification_dedup (s0 : NotificationService) (env : NotificationEnv)
    (l1 l2 : List Earthquake) (e : Earthquake) (t : Rat)
    (hperm : s0.permission = NotificationPermission.granted)
    (hok : env.notificationOk = true)
    (h1 : e ∈ l1) (h2 : e ∈ l2) (hm : t ≤ e.magnitude)
    (hnew : e.id ∉ s0.notifiedEarthquakes) :
    ((notifyMultipleEarthquakes s0 env l1 t).2 ++
      (notifyMultipleEarthquakes
        (notifyMultipleEarthquakes s0 env l1 t).1 env l2 t).2).count e.id = 1 := by
  have hmem1 : e ∈ l1.filter (fun q =>
      decide (t ≤ q.magnitude) && !(decide (q.id ∈ s0.notifiedEarthquakes))) :=
    List.mem_filter.mpr ⟨h1, by simp [hm, hnew]⟩
  have hlen1 : ¬(l1.filter (fun q =>
      decide (t ≤ q.magnitude) && !(decide (q.id ∈ s0.notifiedEarthquakes)))).length = 0 := by
    intro h0
    rw [List.length_eq_zero] at h0
    rw [h0] at hmem1
    simp at hmem1
  have e1 : notifyMultipleEarthquakes s0 env l1 t =
      notifyLoop env t s0 (l1.filter (fun q =>
        decide (t ≤ q.magnitude) && !(decide (q.id ∈ s0.notifiedEarthquakes)))) := by
    unfold notifyMultipleEarthquakes
    rw [if_neg hlen1]
    simp [hperm]
  have hfirst := notifyLoop_first env t e.id hok
    (l1.filter (fun q =>
      decide (t ≤ q.magnitude) && !(decide (q.id ∈ s0.notifiedEarthquakes))))
    s0 hperm hnew ⟨e, hmem1, rfl, hm⟩
  rw [e1]
  rw [List.count_append, hfirst.1]
  have hsecond := notifyMultiple_count_zero
    (notifyLoop env t s0 (l1.filter (fun q =>
      decide (t ≤ q.magnitude) && !(decide (q.id ∈ s0.notifiedEarthquakes))))).1
    env l2 t e.id hfirst.2.1 hok hfirst.2.2
  rw [hsecond]

/-- C2 witness: the same above-threshold event in two consecutive snapshots,
with permission granted, yields exactly one notification in total. -/
theorem notification_dedup_witness :
    ((notifyMultipleEarthquakes notifStart notifEnv [qBig] (mkRat 4 1)).2 ++
      (notifyMultipleEarthquakes
        (notifyMultipleEarthquakes notifStart notifEnv [qBig] (mkRat 4 1)).1
        notifEnv [qBig] (mkRat 4 1)).2).count qBig.id = 1 :=
  notification_dedup notifStart notifEnv [qBig] [qBig] qBig (mkRat 4 1)
    rfl rfl (by decide) (by decide) (by decide) (by decide)
